import Mathlib

/-!
Verification of the KidTok frontend core: the session/settings store
(`src/SettingsContext.tsx`) and the video playback / selection controller
(`src/firebaseConfig.js`, ForYouScreen).  React state updates are embedded as
explicit state passing; asynchronous persistence writes take an explicit
success flag (the environment decides whether `AsyncStorage` fulfils or
rejects); in-flight media-load attempts are tracked in the state, together
with the `currentlyPlaying` value their effect closure captured at render
(closure reads of React state are not live), and are resolved by explicit
completion events.
-/

namespace KidTok

/-! ## Association-list helpers mirroring JS object maps -/

/-- Lookup in a JS-object-like map. -/
def aget {α : Type} : List (String × α) → String → Option α
  | [], _ => none
  | (k2, v) :: rest, k => if k2 = k then some v else aget rest k

/-- Key removal mirroring the JS `delete n[id]` (keys are unique in a JS
object; removing every occurrence keeps the representation canonical). -/
def aerase {α : Type} : List (String × α) → String → List (String × α)
  | [], _ => []
  | (k2, v) :: rest, k => if k2 = k then aerase rest k else (k2, v) :: aerase rest k

/-- Update mirroring the JS spread `\x7b ...prev, [id]: v \x7d`. -/
def aset {α : Type} (l : List (String × α)) (k : String) (v : α) : List (String × α) :=
  (k, v) :: aerase l k

/-! ## SessionSettingsStore (src/SettingsContext.tsx) -/

/-- Serialized selected-videos entry in AsyncStorage: either a well-formed
JSON array of id strings (as written by `JSON.stringify`), or corrupt data on
which `JSON.parse` throws. -/
inductive VideosBlob
  | good (ids : List String)
  | corrupt
deriving DecidableEq

/-- The three AsyncStorage keys used by the settings store. -/
structure Storage where
  parentPin : Option String
  restrictedMode : Option String
  selectedVideos : Option VideosBlob
deriving DecidableEq

/-- Fresh store: no key present. -/
def Storage.empty : Storage := ⟨none, none, none⟩

/-- In-memory provider state of `SettingsProvider`, together with the backing
persisted storage. -/
structure SState where
  isLoading : Bool
  isPinSet : Bool
  pin : Option String
  restrictedMode : Bool
  selectedVideos : List String
  storage : Storage
deriving DecidableEq

/-- State at provider mount, before `loadSettings` resolves. -/
def initialMem (stor : Storage) : SState :=
  ⟨true, false, none, false, [], stor⟩

/-- First app launch: fresh memory over a fresh store. -/
def initialSState : SState := initialMem Storage.empty

/-- `loadSettings`: reads the three keys in order inside one try/catch.
A truthy stored pin (non-null, nonempty) is adopted; `restrictedMode` is the
string comparison with "true"; a present selected-videos entry is
`JSON.parse`d (a corrupt entry throws, jumping to the catch which only logs),
an absent one yields `[]`.  The finally clause clears `isLoading`. -/
def loadSettings (st : SState) : SState :=
  let st1 :=
    match st.storage.parentPin with
    | some p => if p.isEmpty then st else { st with pin := some p, isPinSet := true }
    | none => st
  let st2 := { st1 with restrictedMode := st.storage.restrictedMode == some "true" }
  let st3 :=
    match st.storage.selectedVideos with
    | some (VideosBlob.good ids) => { st2 with selectedVideos := ids }
    | some VideosBlob.corrupt => st2
    | none => { st2 with selectedVideos := [] }
  { st3 with isLoading := false }

/-- `savePin`: awaits the storage write first; only on fulfilment does it
update the in-memory pin and `isPinSet` and return true.  A rejected write is
caught and reported as false with nothing changed. -/
def savePin (st : SState) (newPin : String) (writeOk : Bool) : SState × Bool :=
  if writeOk then
    ({ st with storage := { st.storage with parentPin := some newPin },
               pin := some newPin, isPinSet := true }, true)
  else (st, false)

/-- `verifyPin`: the JS strict equality `enteredPin === pin`, which is false
whenever `pin` is null. -/
def verifyPin (st : SState) (enteredPin : String) : Bool :=
  st.pin == some enteredPin

/-- The list update inside `toggleVideoSelectionInContext`: remove if
present, else append. -/
def toggleList (l : List String) (videoId : String) : List String :=
  if l.contains videoId then l.filter (fun x => x ≠ videoId) else l ++ [videoId]

/-- `toggleVideoSelectionInContext`: updates the in-memory list BEFORE
awaiting the storage write; a rejected write therefore leaves the new list in
memory while the promise rejects (second component false). -/
def toggleVideoSelectionInContext (st : SState) (videoId : String) (writeOk : Bool) :
    SState × Bool :=
  let newSelected := toggleList st.selectedVideos videoId
  let st1 := { st with selectedVideos := newSelected }
  if writeOk then
    ({ st1 with storage :=
        { st1.storage with selectedVideos := some (VideosBlob.good newSelected) } }, true)
  else (st1, false)

/-- `toggleRestrictedMode`: likewise flips the in-memory flag before awaiting
the write of its stringified value. -/
def toggleRestrictedMode (st : SState) (writeOk : Bool) : SState × Bool :=
  let newMode := !st.restrictedMode
  let st1 := { st with restrictedMode := newMode }
  if writeOk then
    ({ st1 with storage :=
        { st1.storage with restrictedMode := some (if newMode then "true" else "false") } }, true)
  else (st1, false)

/-- `clearSettings`: awaits `multiRemove` on all three keys first; the
in-memory resets run only after it fulfils (a rejection propagates before any
setter runs). -/
def clearSettings (st : SState) (removeOk : Bool) : SState × Bool :=
  if removeOk then
    ({ st with storage := Storage.empty, pin := none, isPinSet := false,
               restrictedMode := false, selectedVideos := [] }, true)
  else (st, false)

/-! ### Store histories -/

/-- One observable store operation.  `reload` is a process restart: fresh
provider memory over the surviving storage, followed by the mount-time
`loadSettings` (consumers are gated on `isLoading`, so the loaded state is
the first one observable in the new session). -/
inductive SEv
  | setPin (p : String) (writeOk : Bool)
  | toggleSel (videoId : String) (writeOk : Bool)
  | toggleMode (writeOk : Bool)
  | clear (removeOk : Bool)
  | reload
deriving DecidableEq

/-- Effect of one operation on the store state. -/
def sstep (st : SState) : SEv → SState
  | .setPin p ok => (savePin st p ok).1
  | .toggleSel v ok => (toggleVideoSelectionInContext st v ok).1
  | .toggleMode ok => (toggleRestrictedMode st ok).1
  | .clear ok => (clearSettings st ok).1
  | .reload => loadSettings (initialMem st.storage)

/-- State after a history of operations from first launch. -/
def srun (evs : List SEv) : SState := evs.foldl sstep initialSState

/-- Specification view: the pin most recently committed by a successful
`setPin`, cleared by a successful `clear`. -/
def pinSpecStep (m : Option String) : SEv → Option String
  | .setPin p true => some p
  | .clear true => none
  | _ => m

/-- Most recently successfully-set PIN over a history (none after a clear or
when never set). -/
def mostRecentPin (evs : List SEv) : Option String := evs.foldl pinSpecStep none

/-- One step of the C9 specification flag. -/
def pinSetFlagStep (acc : Bool) : SEv → Bool
  | .setPin _ true => true
  | .clear true => false
  | _ => acc

/-- Specification view of C9: has a `setPin` succeeded since the last
successful `clear`? -/
def setPinSucceededSinceClear (evs : List SEv) : Bool :=
  evs.foldl pinSetFlagStep false

/-- Events that commit an empty-string PIN (the one value whose JS
truthiness check on reload differs from presence). -/
def emptyPinEv : SEv → Bool
  | .setPin p true => p.isEmpty
  | _ => false

/-! ## PlaybackController (src/firebaseConfig.js, ForYouScreen) -/

/-- Free-tier selection cap (`MAX_FREE_SELECTIONS`). -/
def MAX_FREE_SELECTIONS : Nat := 5

/-- Retry cap per item (`MAX_RETRY_ATTEMPTS`). -/
def MAX_RETRY_ATTEMPTS : Nat := 3

/-- Playback-relevant component state of ForYouScreen.  `inflight` records
ids whose `loadAsync` attempt has been started by `performPlayback` but has
not yet settled, each paired with the `currentlyPlaying` value captured by
the effect closure that started it (the render-scoped value from before
`setCurrentlyPlaying(videoId)` ran inside that effect); the code keeps no
request generation, so the id plus that captured closure state is all a
completion has. -/
structure PState where
  currentlyPlaying : Option String
  videoToPlayIntent : Option String
  videoErrors : List (String × String)
  retryAttempts : List (String × Nat)
  inflight : List (String × Option String)
deriving DecidableEq

/-- Mount state of ForYouScreen. -/
def initialPState : PState := ⟨none, none, [], [], []⟩

/-- `handleVideoError` as executed against a given pair of captured
`currentlyPlaying` / `videoToPlayIntent` values: the error and retry maps
are updated functionally (`prev => ...`), so those writes land on current
state, but the two conditional clears read the closure-captured values —
React state reads in a closure are not live.  The clears themselves, when
they fire, write the current state. -/
def handleVideoErrorStale (st : PState) (videoId msg : String)
    (closureCp closureIntent : Option String) : PState :=
  { st with
    videoErrors := aset st.videoErrors videoId msg
    retryAttempts := aset st.retryAttempts videoId
      ((aget st.retryAttempts videoId).getD 0 + 1)
    currentlyPlaying :=
      if closureCp == some videoId then none else st.currentlyPlaying
    videoToPlayIntent :=
      if closureIntent == some videoId then none else st.videoToPlayIntent }

/-- `handleVideoError` as called from rendered-UI event paths (tap handlers,
`onError`, `onPlaybackStatusUpdate`): those closures are recreated on every
render, so the captured values are the committed state at event time. -/
def handleVideoError (st : PState) (videoId : String) (msg : String) : PState :=
  handleVideoErrorStale st videoId msg st.currentlyPlaying st.videoToPlayIntent

/-- `retryVideo`: unconditionally deletes the error entry and the retry
counter for the id and re-requests playback.  The 3-attempt cap is not
checked here. -/
def retryVideo (st : PState) (videoId : String) : PState :=
  { st with
    videoErrors := aerase st.videoErrors videoId
    retryAttempts := aerase st.retryAttempts videoId
    videoToPlayIntent := some videoId }

/-- `canRetry` computed by `renderVideoItem`:
`(retryAttempts[item.id] || 0) < MAX_RETRY_ATTEMPTS`. -/
def canRetry (st : PState) (videoId : String) : Bool :=
  decide ((aget st.retryAttempts videoId).getD 0 < MAX_RETRY_ATTEMPTS)

/-- Whether `renderVideoItem` shows an error overlay for the item. -/
def hasError (st : PState) (videoId : String) : Bool :=
  (aget st.videoErrors videoId).isSome

/-- Whether `renderVideoItem` renders the Retry button for the item: only
inside the error overlay, and only while `canRetry` (otherwise the
"Max retries reached." text is shown instead). -/
def retryAffordanceShown (st : PState) (videoId : String) : Bool :=
  hasError st videoId && canRetry st videoId

/-- Synchronous prefix of `performPlayback`, run by the effect when a play
intent is set: clears any previous error for the intended id; if the player
ref or the video data is missing it records the corresponding error and
drops the intent (here the closure values still equal current state, since
nothing has been committed inside the effect yet); otherwise it marks the
id as currently playing and starts the load attempt, recording the
`currentlyPlaying` the closure captured at render — the value from BEFORE
`setCurrentlyPlaying(videoId)`. -/
def performPlaybackStart (st : PState) (refReady hasData : Bool) : PState :=
  match st.videoToPlayIntent with
  | none => st
  | some videoId =>
    let st1 := { st with videoErrors := aerase st.videoErrors videoId }
    if !refReady then
      { handleVideoError st1 videoId "Player not ready." with videoToPlayIntent := none }
    else if !hasData then
      { handleVideoError st1 videoId "Video data missing." with videoToPlayIntent := none }
    else
      { st1 with currentlyPlaying := some videoId,
                 inflight := (videoId, st.currentlyPlaying) :: st1.inflight }

/-- Settlement of an in-flight load attempt by failure: the thrown load
error, or the 12-second loading timeout.  `handleVideoError` runs through
the effect closure, so its conditional clears compare against the captured
`currentlyPlaying` (and the captured intent, which is this id, so the
intent is cleared — as the finally clause then does unconditionally
anyway), while the map updates apply to current state. -/
def attemptFail (st : PState) (videoId msg : String) : PState :=
  match aget st.inflight videoId with
  | none => st
  | some closureCp =>
    let st1 := handleVideoErrorStale
      { st with inflight := aerase st.inflight videoId } videoId msg closureCp (some videoId)
    { st1 with videoToPlayIntent := none }

/-- Settlement of an in-flight load attempt by a returned status.  A
loaded-and-playing status settles cleanly; a loaded-but-paused status calls
`playAsync`, whose throw lands in the catch; an unloaded status throws
"Failed to load video content." into the catch.  Both catch paths run
`handleVideoError` through the same stale effect closure, and the finally
clause clears the play intent in every case. -/
def attemptSuccess (st : PState) (videoId : String)
    (isLoaded isPlaying playThrew : Bool) (playMsg : String) : PState :=
  match aget st.inflight videoId with
  | none => st
  | some closureCp =>
    let st0 := { st with inflight := aerase st.inflight videoId }
    if isLoaded then
      if !isPlaying && playThrew then
        let st1 := handleVideoErrorStale st0 videoId playMsg closureCp (some videoId)
        { st1 with videoToPlayIntent := none }
      else { st0 with videoToPlayIntent := none }
    else
      let st1 := handleVideoErrorStale st0 videoId "Failed to load video content."
        closureCp (some videoId)
      { st1 with videoToPlayIntent := none }

/-- `handleVideoPlayback`: offline requests fail fast through
`handleVideoError`; a tap on the already-playing loaded item only toggles the
engine pause state; every other case (including switching items, which first
best-effort pauses the old one) sets the play intent. -/
def handleVideoPlayback (st : PState) (videoId : String) (online refLoaded : Bool) : PState :=
  if !online then handleVideoError st videoId "No internet connection."
  else if st.currentlyPlaying == some videoId && refLoaded then st
  else { st with videoToPlayIntent := some videoId }

/-- One playback-controller event: a user play request, the effect firing
`performPlayback`, settlement of an in-flight attempt, a status-update error
or completion for the currently playing item, an engine `onError` callback,
or a retry tap. -/
inductive PEv
  | request (videoId : String) (online refLoaded : Bool)
  | start (refReady hasData : Bool)
  | fail (videoId msg : String)
  | success (videoId : String) (isLoaded isPlaying playThrew : Bool) (playMsg : String)
  | statusError (videoId msg : String)
  | finished (videoId : String)
  | engineError (videoId msg : String)
  | retry (videoId : String)
deriving DecidableEq

/-- Effect of one event, each handler embedded from the source. -/
def pstep (st : PState) : PEv → PState
  | .request v onl rl => handleVideoPlayback st v onl rl
  | .start rr hd => performPlaybackStart st rr hd
  | .fail v m => attemptFail st v m
  | .success v l p t m => attemptSuccess st v l p t m
  | .statusError v m => if st.currentlyPlaying == some v then handleVideoError st v m else st
  | .finished v =>
      if st.currentlyPlaying == some v then { st with currentlyPlaying := none } else st
  | .engineError v m => handleVideoError st v m
  | .retry v => retryVideo st v

/-- Playback state after a sequence of events from mount. -/
def prun (evs : List PEv) : PState := evs.foldl pstep initialPState

/-! ## Selection gate (handleToggleVideoSelection) -/

/-- State read by `handleToggleVideoSelection`: the shared selection list,
the premium entitlement, and the payment-in-progress guard. -/
structure SelectionState where
  selectedVideos : List String
  hasSimulatedPremium : Bool
  isSimulatingPurchase : Bool
deriving DecidableEq

/-- What the handler signals to the user. -/
inductive SelectionSignal
  | silent
  | upgradeRequired
deriving DecidableEq

/-- `handleToggleVideoSelection`: returns during an in-progress purchase;
otherwise raises the premium upsell when a new selection would exceed the
free cap without premium, and else delegates to the context toggle. -/
def handleToggleVideoSelection (st : SelectionState) (videoId : String) :
    SelectionState × SelectionSignal :=
  if st.isSimulatingPurchase then (st, .silent)
  else
    let isCurrentlySelected := st.selectedVideos.contains videoId
    if !isCurrentlySelected
        && decide (MAX_FREE_SELECTIONS ≤ st.selectedVideos.length)
        && !st.hasSimulatedPremium then
      (st, .upgradeRequired)
    else
      ({ st with selectedVideos := toggleList st.selectedVideos videoId }, .silent)

/-! ## Map lemmas -/

theorem aget_aerase {α : Type} (l : List (String × α)) (k j : String) :
    aget (aerase l k) j = if k = j then none else aget l j := by
  induction l with
  | nil => simp only [aerase, aget]; split <;> rfl
  | cons a rest ih =>
    obtain ⟨k2, v⟩ := a
    by_cases h2 : k2 = k
    · subst h2
      simp only [aerase, if_pos rfl, aget]
      by_cases hj : k2 = j
      · subst hj; simp [ih]
      · simp [hj, ih]
    · simp only [aerase, if_neg h2, aget]
      by_cases hj : k2 = j
      · subst hj
        have : k ≠ k2 := fun h => h2 h.symm
        simp [this]
      · simp [hj, ih]

theorem aget_aset {α : Type} (l : List (String × α)) (k j : String) (v : α) :
    aget (aset l k v) j = if k = j then some v else aget l j := by
  simp only [aset, aget, aget_aerase]
  by_cases hj : k = j <;> simp [hj]

/-! ## C1: selection gate trichotomy -/

/-- C1 counterexample: the claim says a request on an already-selected id
unconditionally removes it; but while a purchase is being processed
(`isSimulatingPurchase`), `handleToggleVideoSelection` returns without
mutating the selection and without raising any signal, so the selected id
"a" survives its own deselection request. -/
theorem c1_counterexample :
    (SelectionState.mk ["a"] false true).selectedVideos.contains "a" = true ∧
    (handleToggleVideoSelection ⟨["a"], false, true⟩ "a").1.selectedVideos.contains "a" = true ∧
    (handleToggleVideoSelection ⟨["a"], false, true⟩ "a").2 = SelectionSignal.silent := by
  decide

/-- C1 amended: provided no purchase is in progress, the trichotomy holds:
a selected id is removed (silently); an unselected id is appended when the
selection is below the free cap or premium is unlocked; otherwise the
selection is untouched and the upgrade signal is raised. -/
theorem selection_gate_trichotomy (st : SelectionState) (videoId : String)
    (hp : st.isSimulatingPurchase = false) :
    (st.selectedVideos.contains videoId = true →
       handleToggleVideoSelection st videoId =
         ({ st with selectedVideos := st.selectedVideos.filter (fun x => x ≠ videoId) },
          SelectionSignal.silent)) ∧
    (st.selectedVideos.contains videoId = false →
       ((st.selectedVideos.length < MAX_FREE_SELECTIONS ∨ st.hasSimulatedPremium = true) →
          handleToggleVideoSelection st videoId =
            ({ st with selectedVideos := st.selectedVideos ++ [videoId] },
             SelectionSignal.silent)) ∧
       (MAX_FREE_SELECTIONS ≤ st.selectedVideos.length → st.hasSimulatedPremium = false →
          handleToggleVideoSelection st videoId = (st, SelectionSignal.upgradeRequired))) := by
  refine ⟨fun hsel => ?_, fun hsel => ⟨fun hroom => ?_, fun hfull hprem => ?_⟩⟩
  · have hmem : videoId ∈ st.selectedVideos := by simpa using hsel
    simp [handleToggleVideoSelection, hp, hmem, toggleList]
  · have hmem : videoId ∉ st.selectedVideos := by simpa using hsel
    rcases hroom with hlt | hprem
    · simp [handleToggleVideoSelection, hp, hmem, toggleList, Nat.not_le.mpr hlt]
    · simp [handleToggleVideoSelection, hp, hmem, toggleList, hprem]
  · have hmem : videoId ∉ st.selectedVideos := by simpa using hsel
    simp [handleToggleVideoSelection, hp, hmem, hfull, hprem]

/-- C1 amended witness: a sixth selection attempt with five selected and no
premium is denied with the upgrade signal. -/
theorem selection_gate_trichotomy_witness :
    (SelectionState.mk ["a", "b", "c", "d", "e"] false false).isSimulatingPurchase = false ∧
    (SelectionState.mk ["a", "b", "c", "d", "e"] false false).selectedVideos.contains "f" = false ∧
    handleToggleVideoSelection ⟨["a", "b", "c", "d", "e"], false, false⟩ "f" =
      (⟨["a", "b", "c", "d", "e"], false, false⟩, SelectionSignal.upgradeRequired) := by
  refine ⟨rfl, by decide, ?_⟩
  exact ((selection_gate_trichotomy ⟨["a", "b", "c", "d", "e"], false, false⟩ "f" rfl).2
    (by decide)).2 (by decide) rfl

/-! ## C2: retry cap -/

/-- Three consecutive offline play requests on "a": each fails fast through
`handleVideoError`, driving the retry counter to 3 with the error
uncleared. -/
def threeFailTrace : List PEv :=
  [PEv.request "a" false false, PEv.request "a" false false, PEv.request "a" false false]

/-- C2 counterexample: with the retry count for "a" at 3 and its error
uncleared, `retryVideo "a"` is not a no-op — it clears the error entry and
the retry count and sets the play intent. -/
theorem c2_counterexample :
    (aget (prun threeFailTrace).retryAttempts "a").getD 0 = 3 ∧
    hasError (prun threeFailTrace) "a" = true ∧
    retryVideo (prun threeFailTrace) "a" ≠ prun threeFailTrace := by
  decide

/-- C2 amended: once an item has 3 failed attempts, the UI no longer offers
retry (`canRetry` is false, so `renderVideoItem` shows "Max retries
reached." instead of the Retry button); `retryVideo` itself, if invoked,
unconditionally clears the error entry and the retry count and re-requests
playback. -/
theorem retry_cap_in_ui (st : PState) (videoId : String)
    (h : MAX_RETRY_ATTEMPTS ≤ (aget st.retryAttempts videoId).getD 0) :
    retryAffordanceShown st videoId = false ∧
    canRetry st videoId = false ∧
    aget (retryVideo st videoId).videoErrors videoId = none ∧
    aget (retryVideo st videoId).retryAttempts videoId = none ∧
    (retryVideo st videoId).videoToPlayIntent = some videoId := by
  have hcr : canRetry st videoId = false := by
    simp [canRetry, Nat.not_lt.mpr h]
  refine ⟨?_, hcr, ?_, ?_, rfl⟩
  · simp [retryAffordanceShown, hcr]
  · simp [retryVideo, aget_aerase]
  · simp [retryVideo, aget_aerase]

/-- C2 amended witness: instantiated at the three-failure trace. -/
theorem retry_cap_in_ui_witness :
    MAX_RETRY_ATTEMPTS ≤ (aget (prun threeFailTrace).retryAttempts "a").getD 0 ∧
    retryAffordanceShown (prun threeFailTrace) "a" = false ∧
    canRetry (prun threeFailTrace) "a" = false ∧
    aget (retryVideo (prun threeFailTrace) "a").videoErrors "a" = none ∧
    aget (retryVideo (prun threeFailTrace) "a").retryAttempts "a" = none ∧
    (retryVideo (prun threeFailTrace) "a").videoToPlayIntent = some "a" := by
  refine ⟨by decide, ?_⟩
  have h := retry_cap_in_ui (prun threeFailTrace) "a" (by decide)
  exact ⟨h.1, h.2.1, h.2.2.1, h.2.2.2.1, h.2.2.2.2⟩

/-! ## C3: superseded play requests -/

/-- A play request for "B" whose load attempt is still in flight when a play
request for "A" arrives and starts loading; then the 12-second timeout of
the superseded "B" attempt fires. -/
def supersededTrace : List PEv :=
  [PEv.request "B" true false, PEv.start true true,
   PEv.request "A" true false, PEv.start true true,
   PEv.fail "B" "Video loading timed out."]

/-- C3 failing run: the code keeps no request generation, so the late
failure of the superseded "B" attempt still goes through `handleVideoError`
and records an error for "B" (and its finally clause wipes the play intent
that by then belongs to "A"). -/
theorem superseded_request_records_error :
    aget (prun supersededTrace).videoErrors "B" = some "Video loading timed out." ∧
    (aget (prun supersededTrace).retryAttempts "B").getD 0 = 1 ∧
    (prun supersededTrace).currentlyPlaying = some "A" ∧
    (prun supersededTrace).videoToPlayIntent = none := by
  decide

/-! ## C7: an errored item can stay marked currently playing -/

/-- A plain load failure of a freshly requested video: a play request for
"B" from idle, the effect starts loading it, and the load settles with an
unloaded status (the in-code throw "Failed to load video content."). -/
def plainFailTrace : List PEv :=
  [PEv.request "B" true false, PEv.start true true,
   PEv.success "B" false false false ""]

/-- C7 failing run: the claim says recording an error for the currently
playing item always clears `currentlyPlayingId` in the same transition, so
an errored item is never simultaneously the currently playing item.  In the
source, the catch path runs `handleVideoError` through the effect closure
whose captured `currentlyPlaying` predates `setCurrentlyPlaying("B")`
inside that same effect, so the conditional clear compares the stale null
with "B" and does not fire: the committed state ends with "B" both
currently playing and errored. -/
theorem errored_item_still_marked_playing :
    (prun plainFailTrace).currentlyPlaying = some "B" ∧
    aget (prun plainFailTrace).videoErrors "B" = some "Failed to load video content." ∧
    (aget (prun plainFailTrace).retryAttempts "B").getD 0 = 1 := by
  decide

/-! ## C4: toggle parity and duplicate-freeness -/

/-- Selection list after a sequence of `toggleVideoSelectionInContext` list
updates. -/
def toggleSeq (init : List String) (ids : List String) : List String :=
  ids.foldl toggleList init

theorem toggleList_contains_self (l : List String) (videoId : String) :
    (toggleList l videoId).contains videoId = !(l.contains videoId) := by
  unfold toggleList
  by_cases hc : videoId ∈ l
  · simp [hc, List.mem_filter]
  · simp [hc]

theorem toggleList_contains_other (l : List String) (videoId j : String)
    (hne : j ≠ videoId) :
    (toggleList l videoId).contains j = l.contains j := by
  unfold toggleList
  by_cases hc : videoId ∈ l
  · simp [hc, List.mem_filter, hne]
  · simp [hc, hne]

theorem toggleList_nodup (l : List String) (videoId : String) (h : l.Nodup) :
    (toggleList l videoId).Nodup := by
  unfold toggleList
  by_cases hc : videoId ∈ l
  · simp only [hc, if_pos, List.elem_iff, if_true]
    exact h.filter _
  · simp only [List.elem_iff, hc, if_false, if_neg]
    rw [List.nodup_append]
    exact ⟨h, List.nodup_singleton _, by simpa using hc⟩

theorem parity_flip (n : Nat) : decide ((n + 1) % 2 = 1) = !decide (n % 2 = 1) := by
  by_cases h : n % 2 = 1
  · simp [h]
    omega
  · simp [h]
    omega

theorem toggleSeq_contains (ids : List String) (init : List String) (videoId : String) :
    (toggleSeq init ids).contains videoId =
      ((init.contains videoId).xor (decide (ids.count videoId % 2 = 1))) := by
  induction ids generalizing init with
  | nil => simp [toggleSeq]
  | cons i rest ih =>
    show (toggleSeq (toggleList init i) rest).contains videoId = _
    rw [ih (toggleList init i)]
    by_cases hiv : i = videoId
    · subst hiv
      rw [toggleList_contains_self, List.count_cons_self, parity_flip]
      cases init.contains i <;> cases decide (rest.count i % 2 = 1) <;> rfl
    · rw [toggleList_contains_other _ _ _ (fun hji => hiv hji.symm),
        List.count_cons_of_ne (fun hji => hiv hji.symm)]

theorem toggleSeq_nodup (ids : List String) (init : List String) (h : init.Nodup) :
    (toggleSeq init ids).Nodup := by
  induction ids generalizing init with
  | nil => exact h
  | cons i rest ih => exact ih _ (toggleList_nodup init i h)

/-- C4 counterexample: from the duplicate-free selection ["a"], a single
toggle of "a" (an odd number of toggles) leaves a selection that does NOT
contain "a" — the claim ignores the initial membership of the id. -/
theorem c4_counterexample :
    (["a"] : List String).Nodup ∧
    (["a"] : List String).count "a" % 2 = 1 ∧
    (toggleSeq ["a"] ["a"]).contains "a" = false := by
  decide

/-- C4 amended: from any duplicate-free selection, after any finite sequence
of toggles the selection contains an id iff its initial membership differs
from the parity of its toggle count (for an id initially unselected this is
exactly "toggled an odd number of times"), and the selection is
duplicate-free at every point of the sequence. -/
theorem toggle_parity_and_nodup (init ids : List String) (videoId : String)
    (h : init.Nodup) :
    ((toggleSeq init ids).contains videoId =
      ((init.contains videoId).xor (decide (ids.count videoId % 2 = 1)))) ∧
    (∀ n, (toggleSeq init (ids.take n)).Nodup) :=
  ⟨toggleSeq_contains ids init videoId, fun n => toggleSeq_nodup (ids.take n) init h⟩

/-- C4 amended witness: from the empty selection, toggling "a", "b", "a"
leaves "a" unselected (toggled twice) and every intermediate selection
duplicate-free. -/
theorem toggle_parity_and_nodup_witness :
    ([] : List String).Nodup ∧
    (toggleSeq [] ["a", "b", "a"]).contains "a" =
      ((([] : List String).contains "a").xor
        (decide ((["a", "b", "a"] : List String).count "a" % 2 = 1))) ∧
    (toggleSeq [] ((["a", "b", "a"] : List String).take 2)).Nodup := by
  have h := toggle_parity_and_nodup [] ["a", "b", "a"] "a" (by decide)
  exact ⟨by decide, h.1, h.2 2⟩

/-! ## Settings-store lemmas -/

/-- What a mount-time load leaves in the pin-related fields, for any
storage contents: storage is untouched, and the pin is adopted exactly when
present and nonempty (JS truthiness). -/
theorem loadSettings_pin_fields (stor : Storage) :
    ((loadSettings (initialMem stor)).storage = stor) ∧
    ((loadSettings (initialMem stor)).pin =
      (match stor.parentPin with
       | some p => if p.isEmpty then none else some p
       | none => none)) ∧
    ((loadSettings (initialMem stor)).isPinSet =
      (match stor.parentPin with
       | some p => !p.isEmpty
       | none => false)) := by
  unfold loadSettings initialMem
  cases hp : stor.parentPin with
  | none =>
    cases hsv : stor.selectedVideos with
    | none => simp
    | some b => cases b <;> simp
  | some p =>
    by_cases hpe : p.isEmpty
    · cases hsv : stor.selectedVideos with
      | none => simp [hpe]
      | some b => cases b <;> simp [hpe]
    · cases hsv : stor.selectedVideos with
      | none => simp [hpe]
      | some b => cases b <;> simp [hpe]

/-! ## C6: write-failure atomicity -/

/-- C6 counterexample: a failed persistence write under
`toggleVideoSelectionInContext` (promise rejects, second component false)
still leaves the toggled list in memory — the in-memory state is NOT left
as it was before the call. -/
theorem c6_counterexample :
    (toggleVideoSelectionInContext initialSState "a" false).2 = false ∧
    (toggleVideoSelectionInContext initialSState "a" false).1.selectedVideos = ["a"] ∧
    initialSState.selectedVideos = [] := by
  decide

/-- C6 amended: on a failed persistence write, `savePin` reports false and
leaves everything unchanged; `toggleVideoSelectionInContext` and
`toggleRestrictedMode` report the failure (the promise rejects) and leave
persisted storage unchanged, but they apply the in-memory update BEFORE the
write, so memory keeps the new value — the no-partial-update guarantee holds
only for `savePin`. -/
theorem write_failure_semantics (st : SState) (p videoId : String) :
    (savePin st p false = (st, false)) ∧
    ((toggleVideoSelectionInContext st videoId false).1.selectedVideos =
        toggleList st.selectedVideos videoId ∧
      (toggleVideoSelectionInContext st videoId false).1.storage = st.storage ∧
      (toggleVideoSelectionInContext st videoId false).1.pin = st.pin ∧
      (toggleVideoSelectionInContext st videoId false).2 = false) ∧
    ((toggleRestrictedMode st false).1.restrictedMode = !st.restrictedMode ∧
      (toggleRestrictedMode st false).1.storage = st.storage ∧
      (toggleRestrictedMode st false).2 = false) :=
  ⟨rfl, ⟨rfl, rfl, rfl, rfl⟩, ⟨rfl, rfl, rfl⟩⟩

/-- C6 amended witness: instantiated at the first-launch state. -/
theorem write_failure_semantics_witness :
    (savePin initialSState "1" false = (initialSState, false)) ∧
    ((toggleVideoSelectionInContext initialSState "a" false).1.selectedVideos =
        toggleList initialSState.selectedVideos "a" ∧
      (toggleVideoSelectionInContext initialSState "a" false).1.storage =
        initialSState.storage ∧
      (toggleVideoSelectionInContext initialSState "a" false).1.pin = initialSState.pin ∧
      (toggleVideoSelectionInContext initialSState "a" false).2 = false) ∧
    ((toggleRestrictedMode initialSState false).1.restrictedMode =
        !initialSState.restrictedMode ∧
      (toggleRestrictedMode initialSState false).1.storage = initialSState.storage ∧
      (toggleRestrictedMode initialSState false).2 = false) :=
  write_failure_semantics initialSState "1" "a"

/-! ## C8: load fails open -/

/-- C8: `loadSettings` is total (the try/catch never lets an error escape;
the finally clause always clears `isLoading`); a fresh store loads to the
zero-value defaults; a corrupt selected-videos entry (on which `JSON.parse`
throws) leaves the default empty selection while the earlier fields are
still loaded from storage. -/
theorem loadSettings_fail_open :
    (∀ stor : Storage, (loadSettings (initialMem stor)).isLoading = false) ∧
    (loadSettings initialSState =
      { isLoading := false, isPinSet := false, pin := none, restrictedMode := false,
        selectedVideos := [], storage := Storage.empty }) ∧
    (∀ p m, (loadSettings (initialMem ⟨p, m, some VideosBlob.corrupt⟩)).selectedVideos = []) ∧
    (∀ p m, (loadSettings (initialMem ⟨p, m, some VideosBlob.corrupt⟩)).restrictedMode =
      (m == some "true")) := by
  refine ⟨fun stor => rfl, by decide, fun p m => ?_, fun p m => ?_⟩
  · cases p with
    | none => rfl
    | some q =>
      by_cases hq : q.isEmpty <;> simp [loadSettings, initialMem, hq]
  · cases p with
    | none => rfl
    | some q =>
      by_cases hq : q.isEmpty <;> simp [loadSettings, initialMem, hq]

/-! ## C10: empty PIN does not survive reload -/

/-- C10: a successful `savePin("")` makes `isPinSet` true and
`verifyPin("")` true in the same session, but after a restart the stored
empty pin fails the JS truthiness check in `loadSettings`, so `isPinSet` is
false and `verifyPin("")` is false. -/
theorem empty_pin_reload_roundtrip (st : SState) :
    ((savePin st "" true).1.isPinSet = true) ∧
    (verifyPin (savePin st "" true).1 "" = true) ∧
    ((sstep (savePin st "" true).1 SEv.reload).isPinSet = false) ∧
    (verifyPin (sstep (savePin st "" true).1 SEv.reload) "" = false) := by
  have hfld := loadSettings_pin_fields (savePin st "" true).1.storage
  have hpp : (savePin st "" true).1.storage.parentPin = some "" := rfl
  refine ⟨rfl, by simp [verifyPin, savePin], ?_, ?_⟩
  · show (loadSettings (initialMem (savePin st "" true).1.storage)).isPinSet = false
    rw [hfld.2.2, hpp]
    decide
  · show verifyPin (loadSettings (initialMem (savePin st "" true).1.storage)) "" = false
    unfold verifyPin
    rw [hfld.2.1, hpp]
    decide

/-- C10 witness: instantiated at the first-launch state. -/
theorem empty_pin_reload_roundtrip_witness :
    ((savePin initialSState "" true).1.isPinSet = true) ∧
    (verifyPin (savePin initialSState "" true).1 "" = true) ∧
    ((sstep (savePin initialSState "" true).1 SEv.reload).isPinSet = false) ∧
    (verifyPin (sstep (savePin initialSState "" true).1 SEv.reload) "" = false) :=
  empty_pin_reload_roundtrip initialSState

/-! ## Pin trace invariant (shared by C5 and C9) -/

/-- One-step preservation: over any operation that does not commit an empty
PIN, the in-memory pin, the stored pin and `isPinSet` all track the most
recently successfully-set PIN. -/
theorem sstep_pin_inv (st : SState) (m : Option String) (e : SEv)
    (h1 : st.pin = m) (h2 : st.storage.parentPin = m)
    (h3 : st.isPinSet = m.isSome)
    (hm : ∀ p, m = some p → p.isEmpty = false)
    (he : emptyPinEv e = false) :
    (sstep st e).pin = pinSpecStep m e ∧
    (sstep st e).storage.parentPin = pinSpecStep m e ∧
    (sstep st e).isPinSet = (pinSpecStep m e).isSome ∧
    (∀ p, pinSpecStep m e = some p → p.isEmpty = false) := by
  cases e with
  | setPin p ok =>
    cases ok with
    | true =>
      have hp : p.isEmpty = false := by simpa [emptyPinEv] using he
      refine ⟨rfl, rfl, rfl, ?_⟩
      intro q hq
      cases hq
      exact hp
    | false => exact ⟨h1, h2, h3, hm⟩
  | toggleSel v ok => cases ok <;> exact ⟨h1, h2, h3, hm⟩
  | toggleMode ok => cases ok <;> exact ⟨h1, h2, h3, hm⟩
  | clear ok =>
    cases ok with
    | true =>
      refine ⟨rfl, rfl, rfl, ?_⟩
      intro q hq
      exact Option.noConfusion hq
    | false => exact ⟨h1, h2, h3, hm⟩
  | reload =>
    have hfld := loadSettings_pin_fields st.storage
    show (loadSettings (initialMem st.storage)).pin = m ∧
      (loadSettings (initialMem st.storage)).storage.parentPin = m ∧
      (loadSettings (initialMem st.storage)).isPinSet = m.isSome ∧
      (∀ p, m = some p → p.isEmpty = false)
    cases hmm : m with
    | none =>
      rw [hmm] at h2
      refine ⟨?_, ?_, ?_, fun q hq => Option.noConfusion hq⟩
      · rw [hfld.2.1, h2]
      · rw [hfld.1, h2]
      · rw [hfld.2.2, h2]
        rfl
    | some p =>
      have hp : p.isEmpty = false := hm p hmm
      rw [hmm] at h2
      refine ⟨?_, ?_, ?_, fun q hq => by cases hq; exact hp⟩
      · rw [hfld.2.1, h2]
        simp [hp]
      · rw [hfld.1, h2]
      · rw [hfld.2.2, h2]
        simp [hp]

/-- Fold extension of the one-step pin invariant. -/
theorem foldl_pin_inv (evs : List SEv) (st : SState) (m : Option String)
    (h1 : st.pin = m) (h2 : st.storage.parentPin = m)
    (h3 : st.isPinSet = m.isSome)
    (hm : ∀ p, m = some p → p.isEmpty = false)
    (h : ∀ e ∈ evs, emptyPinEv e = false) :
    (evs.foldl sstep st).pin = evs.foldl pinSpecStep m ∧
    (evs.foldl sstep st).storage.parentPin = evs.foldl pinSpecStep m ∧
    (evs.foldl sstep st).isPinSet = (evs.foldl pinSpecStep m).isSome := by
  induction evs generalizing st m with
  | nil => exact ⟨h1, h2, h3⟩
  | cons e rest ih =>
    have he : emptyPinEv e = false := h e (List.mem_cons_self e rest)
    obtain ⟨g1, g2, g3, g4⟩ := sstep_pin_inv st m e h1 h2 h3 hm he
    exact ih (sstep st e) (pinSpecStep m e) g1 g2 g3 g4
      (fun x hx => h x (List.mem_cons_of_mem e hx))

/-- The pin invariant from first launch. -/
theorem srun_pin_inv (evs : List SEv)
    (h : ∀ e ∈ evs, emptyPinEv e = false) :
    (srun evs).pin = mostRecentPin evs ∧
    (srun evs).storage.parentPin = mostRecentPin evs ∧
    (srun evs).isPinSet = (mostRecentPin evs).isSome := by
  exact foldl_pin_inv evs initialSState none rfl rfl rfl
    (fun p hp => Option.noConfusion hp) h

/-- The C9 flag is presence of the most recently-set pin. -/
theorem sinceClear_eq_isSome (evs : List SEv) :
    setPinSucceededSinceClear evs = (mostRecentPin evs).isSome := by
  show evs.foldl pinSetFlagStep false = (evs.foldl pinSpecStep none).isSome
  have step : ∀ (b : Bool) (m : Option String) (e : SEv), b = m.isSome →
      pinSetFlagStep b e = (pinSpecStep m e).isSome := by
    intro b m e hb
    cases e with
    | setPin p ok =>
      cases ok with
      | true => simp [pinSetFlagStep, pinSpecStep]
      | false => simp [pinSetFlagStep, pinSpecStep, hb]
    | toggleSel v ok => simp [pinSetFlagStep, pinSpecStep, hb]
    | toggleMode ok => simp [pinSetFlagStep, pinSpecStep, hb]
    | clear ok =>
      cases ok with
      | true => simp [pinSetFlagStep, pinSpecStep]
      | false => simp [pinSetFlagStep, pinSpecStep, hb]
    | reload => simp [pinSetFlagStep, pinSpecStep, hb]
  have main : ∀ (evs2 : List SEv) (b : Bool) (m : Option String), b = m.isSome →
      evs2.foldl pinSetFlagStep b = (evs2.foldl pinSpecStep m).isSome := by
    intro evs2
    induction evs2 with
    | nil => intro b m hb; exact hb
    | cons e rest ih => intro b m hb; exact ih _ _ (step b m e hb)
  exact main evs false none rfl

/-! ## C9: isPinSet tracks setPin-since-clear -/

/-- C9 counterexample: `setPin("")` succeeds, then the app restarts and
loads: a `setPin` has succeeded since the last clear, yet `isPinSet` is
false, because the stored empty pin fails the JS truthiness check. -/
theorem c9_counterexample :
    setPinSucceededSinceClear [SEv.setPin "" true, SEv.reload] = true ∧
    (srun [SEv.setPin "" true, SEv.reload]).isPinSet = false := by
  decide

/-- C9 amended: over every history of store operations (including restarts
with reload and clears) in which no successful `setPin` committed the empty
string, `isPinSet` is true exactly when a `setPin` has succeeded since the
last successful `clear`. -/
theorem isPinSet_tracks_setPin (evs : List SEv)
    (h : evs.all (fun e => !emptyPinEv e) = true) :
    (srun evs).isPinSet = setPinSucceededSinceClear evs := by
  have h2 : ∀ e ∈ evs, emptyPinEv e = false := by
    intro e he
    have := List.all_eq_true.mp h e he
    simpa using this
  rw [sinceClear_eq_isSome]
  exact (srun_pin_inv evs h2).2.2

/-- C9 amended witness: set, clear, set again, restart — `isPinSet` is true
and so is the specification flag. -/
theorem isPinSet_tracks_setPin_witness :
    ([SEv.setPin "1234" true, SEv.clear true, SEv.setPin "9999" true,
        SEv.reload].all (fun e => !emptyPinEv e) = true) ∧
    (srun [SEv.setPin "1234" true, SEv.clear true, SEv.setPin "9999" true,
        SEv.reload]).isPinSet =
      setPinSucceededSinceClear [SEv.setPin "1234" true, SEv.clear true,
        SEv.setPin "9999" true, SEv.reload] :=
  ⟨by decide, isPinSet_tracks_setPin _ (by decide)⟩

/-! ## C5: verifyPin -/

/-- C5 counterexample: after a successful `setPin("")` and a restart+load,
the most recently successfully-set PIN is the empty string, yet
`verifyPin("")` returns false — the stored empty pin was dropped by the
truthiness check, so the claimed equivalence fails. -/
theorem c5_counterexample :
    mostRecentPin [SEv.setPin "" true, SEv.reload] = some "" ∧
    verifyPin (srun [SEv.setPin "" true, SEv.reload]) "" = false := by
  decide

/-- C5 amended: over every history in which no successful `setPin` committed
the empty string, `verifyPin(x)` returns true iff `x` equals the most
recently successfully-set PIN; it returns false whenever no PIN is set in
memory (including for the empty candidate), and it is a pure function of the
in-memory pin alone (so it touches no persistence). -/
theorem verifyPin_spec (evs : List SEv) (x : String)
    (h : evs.all (fun e => !emptyPinEv e) = true) :
    (verifyPin (srun evs) x = true ↔ mostRecentPin evs = some x) ∧
    ((srun evs).pin = none → verifyPin (srun evs) x = false) ∧
    (∀ st1 st2 : SState, st1.pin = st2.pin → verifyPin st1 x = verifyPin st2 x) := by
  have h2 : ∀ e ∈ evs, emptyPinEv e = false := by
    intro e he
    have := List.all_eq_true.mp h e he
    simpa using this
  have hpin := (srun_pin_inv evs h2).1
  refine ⟨?_, fun hnone => ?_, fun st1 st2 h12 => ?_⟩
  · rw [verifyPin, hpin, beq_iff_eq]
  · rw [verifyPin, hnone]
    rfl
  · rw [verifyPin, verifyPin, h12]

/-- C5 amended witness: after `setPin("1234")`, verifying "1234" succeeds
and matches the most recently-set pin. -/
theorem verifyPin_spec_witness :
    ([SEv.setPin "1234" true].all (fun e => !emptyPinEv e) = true) ∧
    (verifyPin (srun [SEv.setPin "1234" true]) "1234" = true ↔
      mostRecentPin [SEv.setPin "1234" true] = some "1234") :=
  ⟨by decide, (verifyPin_spec [SEv.setPin "1234" true] "1234" (by decide)).1⟩

end KidTok
